import Mathlib

/-!
Shallow embedding of the FreelanceReply bot backend (AutoReply Pro):
the in-memory storage engine (`src/server/storage.ts`), the AI gateway
contract (`src/server/services/openai.ts`) and the request handlers
(`src/server/routes.ts`) that the specification's claims are about.

Modelling conventions:
* JavaScript `Date` timestamps are modelled as natural-number clock ticks;
  every operation that stamps `new Date()` takes the current tick `now`
  as an explicit argument.
* Nullable columns (`type | null` in the inferred record types) are
  modelled as `Option`; a JSON `null` is `none`.  The two response
  feedback fields can additionally hold JavaScript `undefined` (the
  feedback route spreads destructured — possibly missing — body keys),
  so they use the three-state type `Jv`.
* `Partial<T>` update payloads are structures whose every field is
  wrapped in `Option`: `none` means the key is absent from the payload,
  `some v` means the key is present with value `v`.  Object spread
  `{ ...record, ...updates }` takes the payload value exactly when the
  key is present.
* JavaScript numbers are modelled as `ℚ` (for AI confidence values and
  the analytics-summary arithmetic) or `Int` (for integer counters).
  A division whose JS result would be non-finite (`NaN`/`Infinity`)
  is modelled as `Option ℚ` with value `none`.
* `Map<string, T>` is an association list `List (String × T)`;
  `Map.set` replaces in place when the key exists and appends otherwise,
  and `Map.values()` iterates in insertion order.
* The external OpenAI call is opaque: each gateway operation takes the
  outcome of the underlying call as an `Except Unit Raw…` argument
  (`.error` = the call threw; `.ok r` = the parsed JSON object `r`,
  whose fields may individually be absent/null).  Prompt construction
  only feeds the external call and is not modelled.
-/

/-- A JavaScript value that may be `undefined`, `null`, or a proper value. -/
inductive Jv (α : Type) where
  | undef : Jv α
  | null : Jv α
  | val : α → Jv α
deriving DecidableEq, Repr

/-- JS `x || d` for an optional string: `null`/`undefined`/`""` are falsy. -/
def jsOrStr (x : Option String) (d : String) : String :=
  match x with
  | none => d
  | some s => if s = "" then d else s

/-- JS `x || d` for an optional number: `null`/`undefined`/`0` are falsy. -/
def jsOrNum (x : Option ℚ) (d : ℚ) : ℚ :=
  match x with
  | none => d
  | some c => if c = 0 then d else c

/-- JS `x || 0` for a nullable integer counter. -/
def orZero (x : Option Int) : Int :=
  match x with
  | none => 0
  | some n => n

/-- JS `x || undefined` for an optional string (empty string becomes undefined). -/
def jsOrUndef (x : Option String) : Option String :=
  match x with
  | none => none
  | some s => if s = "" then none else some s

/-- JS `Math.max(0, Math.min(1, c))`. -/
def clamp01 (c : ℚ) : ℚ := max 0 (min 1 c)

/-- Association-list lookup, `Map.get`. -/
def lookupAssoc {α : Type} (l : List (String × α)) (k : String) : Option α :=
  match l with
  | [] => none
  | (k', v) :: rest => if k' = k then some v else lookupAssoc rest k

/-- Association-list update, `Map.set`: replace in place or append. -/
def setAssoc {α : Type} (l : List (String × α)) (k : String) (v : α) :
    List (String × α) :=
  match l with
  | [] => [(k, v)]
  | (k', v') :: rest =>
      if k' = k then (k, v) :: rest else (k', v') :: setAssoc rest k v

/-- Model of `Map.values()` in insertion order. -/
def valuesOf {α : Type} (l : List (String × α)) : List α := l.map Prod.snd

/-! ## Entity model (`src/shared/schema.ts`, `$inferSelect` shapes) -/

/-- The `users` table row. -/
structure User where
  id : String
  username : String
  password : String
deriving DecidableEq, Repr

/-- The `templates` table row.  Opaque jsonb `variables` is a list of
placeholder names, as the application uses it. -/
structure Template where
  id : String
  userId : String
  name : String
  category : String
  subject : Option String
  content : String
  «variables» : Option (List String)
  isActive : Option Bool
  successRate : Option Int
  timesUsed : Option Int
  createdAt : Nat
  updatedAt : Nat
deriving DecidableEq, Repr

/-- The `inquiries` table row.  `aiClassification` is an opaque structured
payload; the routes store the classification record there, modelled here
by its JSON rendering being irrelevant — we store the classification
fields that matter via the typed record below. -/
structure Inquiry where
  id : String
  userId : String
  subject : Option String
  content : String
  category : Option String
  priority : Option String
  source : Option String
  sender : Option String
  createdAt : Nat
deriving DecidableEq, Repr

/-- The `responses` table row.  `customerFeedback` and `success` use `Jv`
because the feedback route can overwrite them with `undefined`. -/
structure Response where
  id : String
  inquiryId : String
  templateId : Option String
  content : String
  isAutomated : Option Bool
  wasModified : Option Bool
  sentAt : Nat
  customerFeedback : Jv Int
  success : Jv Bool
deriving DecidableEq, Repr

/-- The `integrations` table row; opaque jsonb payloads modelled as opaque
strings (their structure never matters to the backend). -/
structure Integration where
  id : String
  userId : String
  platform : String
  isActive : Option Bool
  credentials : Option String
  settings : Option String
  lastSync : Option Nat
  createdAt : Nat
deriving DecidableEq, Repr

/-- The `analytics` table row. -/
structure Analytics where
  id : String
  userId : String
  date : Option Nat
  totalInquiries : Option Int
  automatedResponses : Option Int
  manualResponses : Option Int
  averageResponseTime : Option Int
  customerSatisfaction : Option Int
  timeSaved : Option Int
deriving DecidableEq, Repr

/-! ## Insert payloads (zod insert schemas: server-assigned fields omitted) -/

/-- Shape `InsertTemplate`: optional fields are `Option`; `??` in the store
treats JSON `null` and an absent key identically, so both collapse to
`none`. -/
structure InsertTemplate where
  userId : String
  name : String
  category : String
  subject : Option String := none
  content : String
  «variables» : Option (List String) := none
  isActive : Option Bool := none
  successRate : Option Int := none
  timesUsed : Option Int := none
deriving DecidableEq, Repr

/-- Shape `InsertInquiry`. -/
structure InsertInquiry where
  userId : String
  subject : Option String := none
  content : String
  category : Option String := none
  priority : Option String := none
  source : Option String := none
  sender : Option String := none
deriving DecidableEq, Repr

/-- Shape `InsertResponse`. -/
structure InsertResponse where
  inquiryId : String
  templateId : Option String := none
  content : String
  isAutomated : Option Bool := none
  wasModified : Option Bool := none
  customerFeedback : Option Int := none
  success : Option Bool := none
deriving DecidableEq, Repr

/-! ## Partial update payloads (`Partial<T>`) -/

/-- Payload `Partial<Template>`: each field's key may be absent (`none`) or
present with a value of the stored field's type. -/
structure TemplatePatch where
  id : Option String := none
  userId : Option String := none
  name : Option String := none
  category : Option String := none
  subject : Option (Option String) := none
  content : Option String := none
  «variables» : Option (Option (List String)) := none
  isActive : Option (Option Bool) := none
  successRate : Option (Option Int) := none
  timesUsed : Option (Option Int) := none
  createdAt : Option Nat := none
  updatedAt : Option Nat := none
deriving DecidableEq, Repr

/-- Payload `Partial<Response>`. -/
structure ResponsePatch where
  id : Option String := none
  inquiryId : Option String := none
  templateId : Option (Option String) := none
  content : Option String := none
  isAutomated : Option (Option Bool) := none
  wasModified : Option (Option Bool) := none
  sentAt : Option Nat := none
  customerFeedback : Option (Jv Int) := none
  success : Option (Jv Bool) := none
deriving DecidableEq, Repr

/-- Payload `Partial<Integration>`. -/
structure IntegrationPatch where
  id : Option String := none
  userId : Option String := none
  platform : Option String := none
  isActive : Option (Option Bool) := none
  credentials : Option (Option String) := none
  settings : Option (Option String) := none
  lastSync : Option (Option Nat) := none
  createdAt : Option Nat := none
deriving DecidableEq, Repr

/-- Payload `Partial<Analytics>`. -/
structure AnalyticsPatch where
  id : Option String := none
  userId : Option String := none
  date : Option (Option Nat) := none
  totalInquiries : Option (Option Int) := none
  automatedResponses : Option (Option Int) := none
  manualResponses : Option (Option Int) := none
  averageResponseTime : Option (Option Int) := none
  customerSatisfaction : Option (Option Int) := none
  timeSaved : Option (Option Int) := none
deriving DecidableEq, Repr

/-! ## The in-memory store (`MemStorage`) -/

/-- The six maps of `MemStorage`, keyed by generated id strings. -/
structure Store where
  users : List (String × User)
  templates : List (String × Template)
  inquiries : List (String × Inquiry)
  responses : List (String × Response)
  integrations : List (String × Integration)
  analytics : List (String × Analytics)
deriving DecidableEq, Repr

namespace MemStorage

/-- Source `getUserByUsername`: linear scan over the users map's values. -/
def getUserByUsername (s : Store) (username : String) : Option User :=
  (valuesOf s.users).find? (fun u => u.username = username)

/-- Source `getTemplates(userId)`: owner-filtered values. -/
def getTemplates (s : Store) (userId : String) : List Template :=
  (valuesOf s.templates).filter (fun t => t.userId = userId)

/-- Source `getTemplate(id)`. -/
def getTemplate (s : Store) (id : String) : Option Template :=
  lookupAssoc s.templates id

/-- Source `createTemplate`: fresh id and creation tick are explicit arguments;
defaults applied with `??` exactly as in the source. -/
def createTemplate (s : Store) (ins : InsertTemplate) (id : String)
    (now : Nat) : Template × Store :=
  let template : Template := {
    id := id
    userId := ins.userId
    name := ins.name
    category := ins.category
    content := ins.content
    createdAt := now
    updatedAt := now
    isActive := some (ins.isActive.getD true)
    successRate := some (ins.successRate.getD 0)
    timesUsed := some (ins.timesUsed.getD 0)
    «variables» := some (ins.«variables».getD [])
    subject := ins.subject
  }
  (template, { s with templates := setAssoc s.templates id template })

/-- Spread of template, updates, then `updatedAt: new Date()`: a present
payload key overrides the stored field; the `updatedAt:` literal comes
after the spread, so it always wins, even over a payload `updatedAt`. -/
def applyTemplatePatch (t : Template) (p : TemplatePatch) (now : Nat) :
    Template :=
  { id := p.id.getD t.id
    userId := p.userId.getD t.userId
    name := p.name.getD t.name
    category := p.category.getD t.category
    subject := p.subject.getD t.subject
    content := p.content.getD t.content
    «variables» := p.«variables».getD t.«variables»
    isActive := p.isActive.getD t.isActive
    successRate := p.successRate.getD t.successRate
    timesUsed := p.timesUsed.getD t.timesUsed
    createdAt := p.createdAt.getD t.createdAt
    updatedAt := now }

/-- Source `updateTemplate(id, updates)`: not-found is `none`; the merged
record is stored back under the same map key. -/
def updateTemplate (s : Store) (id : String) (p : TemplatePatch)
    (now : Nat) : Option Template × Store :=
  match lookupAssoc s.templates id with
  | none => (none, s)
  | some t =>
      let t' := applyTemplatePatch t p now
      (some t', { s with templates := setAssoc s.templates id t' })

/-- Source `getInquiries(userId)`. -/
def getInquiries (s : Store) (userId : String) : List Inquiry :=
  (valuesOf s.inquiries).filter (fun i => i.userId = userId)

/-- Source `createInquiry`: defaults via `??` as in the source. -/
def createInquiry (s : Store) (ins : InsertInquiry) (id : String)
    (now : Nat) : Inquiry × Store :=
  let inquiry : Inquiry := {
    id := id
    userId := ins.userId
    content := ins.content
    createdAt := now
    category := ins.category
    priority := some (ins.priority.getD "normal")
    source := some (ins.source.getD "email")
    sender := ins.sender
    subject := ins.subject
  }
  (inquiry, { s with inquiries := setAssoc s.inquiries id inquiry })

/-- Source `createResponse`: defaults via `??` as in the source. -/
def createResponse (s : Store) (ins : InsertResponse) (id : String)
    (now : Nat) : Response × Store :=
  let response : Response := {
    id := id
    inquiryId := ins.inquiryId
    content := ins.content
    sentAt := now
    isAutomated := some (ins.isAutomated.getD true)
    wasModified := some (ins.wasModified.getD false)
    customerFeedback := match ins.customerFeedback with
      | some n => Jv.val n
      | none => Jv.null
    success := match ins.success with
      | some b => Jv.val b
      | none => Jv.null
    templateId := ins.templateId
  }
  (response, { s with responses := setAssoc s.responses id response })

/-- Spread merge of a response with an update payload. -/
def applyResponsePatch (r : Response) (p : ResponsePatch) : Response :=
  { id := p.id.getD r.id
    inquiryId := p.inquiryId.getD r.inquiryId
    templateId := p.templateId.getD r.templateId
    content := p.content.getD r.content
    isAutomated := p.isAutomated.getD r.isAutomated
    wasModified := p.wasModified.getD r.wasModified
    sentAt := p.sentAt.getD r.sentAt
    customerFeedback := p.customerFeedback.getD r.customerFeedback
    success := p.success.getD r.success }

/-- Source `updateResponse(id, updates)`. -/
def updateResponse (s : Store) (id : String) (p : ResponsePatch) :
    Option Response × Store :=
  match lookupAssoc s.responses id with
  | none => (none, s)
  | some r =>
      let r' := applyResponsePatch r p
      (some r', { s with responses := setAssoc s.responses id r' })

/-- Source `getResponsesByUser(userId)`: the two-step application-level join —
resolve the owner's inquiry ids, then keep responses whose `inquiryId`
is `includes`-member of that id list. -/
def getResponsesByUser (s : Store) (userId : String) : List Response :=
  let inquiryIds := (getInquiries s userId).map (fun i => i.id)
  (valuesOf s.responses).filter (fun r => inquiryIds.contains r.inquiryId)

/-- Spread merge of an integration with an update payload. -/
def applyIntegrationPatch (g : Integration) (p : IntegrationPatch) :
    Integration :=
  { id := p.id.getD g.id
    userId := p.userId.getD g.userId
    platform := p.platform.getD g.platform
    isActive := p.isActive.getD g.isActive
    credentials := p.credentials.getD g.credentials
    settings := p.settings.getD g.settings
    lastSync := p.lastSync.getD g.lastSync
    createdAt := p.createdAt.getD g.createdAt }

/-- Source `updateIntegration(id, updates)`. -/
def updateIntegration (s : Store) (id : String) (p : IntegrationPatch) :
    Option Integration × Store :=
  match lookupAssoc s.integrations id with
  | none => (none, s)
  | some g =>
      let g' := applyIntegrationPatch g p
      (some g', { s with integrations := setAssoc s.integrations id g' })

/-- Spread merge of an analytics row with an update payload. -/
def applyAnalyticsPatch (a : Analytics) (p : AnalyticsPatch) : Analytics :=
  { id := p.id.getD a.id
    userId := p.userId.getD a.userId
    date := p.date.getD a.date
    totalInquiries := p.totalInquiries.getD a.totalInquiries
    automatedResponses := p.automatedResponses.getD a.automatedResponses
    manualResponses := p.manualResponses.getD a.manualResponses
    averageResponseTime := p.averageResponseTime.getD a.averageResponseTime
    customerSatisfaction := p.customerSatisfaction.getD a.customerSatisfaction
    timeSaved := p.timeSaved.getD a.timeSaved }

/-- Source `updateAnalytics(id, updates)`. -/
def updateAnalytics (s : Store) (id : String) (p : AnalyticsPatch) :
    Option Analytics × Store :=
  match lookupAssoc s.analytics id with
  | none => (none, s)
  | some a =>
      let a' := applyAnalyticsPatch a p
      (some a', { s with analytics := setAssoc s.analytics id a' })

end MemStorage

/-! ## AI gateway contract (`src/server/services/openai.ts`)

Each operation is a deterministic post-processing of the outcome of the
underlying `openai.chat.completions.create` call.  The outcome is an
explicit `Except Unit …` argument: `.error ()` means the call (or the
JSON parse of its answer) threw; `.ok r` is the parsed JSON object,
each of whose fields may be absent or null (`Option`).  Prompt
construction only feeds the external call, so the subject/content and
template-list inputs do not influence the returned record and are not
parameters of the model. -/

/-- Parsed JSON object returned by the classification call. -/
structure RawClassify where
  category : Option String := none
  priority : Option String := none
  intent : Option String := none
  confidence : Option ℚ := none
  requiredVariables : Option (List String) := none
  suggestedTemplateId : Option String := none
deriving DecidableEq, Repr

/-- Record `InquiryClassification` as returned to callers. -/
structure InquiryClassification where
  category : String
  priority : String
  intent : String
  confidence : ℚ
  requiredVariables : List String
  suggestedTemplateId : Option String
deriving DecidableEq, Repr

/-- Source `classifyInquiry`: defaults with `||`, confidence
`Math.max(0, Math.min(1, result.confidence || 0.5))`; the catch branch
returns the all-defaults record with confidence 0 and no suggested
template. -/
def classifyInquiry (call : Except Unit RawClassify) :
    InquiryClassification :=
  match call with
  | .error _ =>
      { category := "general"
        priority := "normal"
        intent := "Unable to classify inquiry"
        confidence := 0
        requiredVariables := []
        suggestedTemplateId := none }
  | .ok r =>
      { category := jsOrStr r.category "general"
        priority := jsOrStr r.priority "normal"
        intent := jsOrStr r.intent "General inquiry"
        confidence := clamp01 (jsOrNum r.confidence (1/2))
        requiredVariables := r.requiredVariables.getD []
        suggestedTemplateId := jsOrUndef r.suggestedTemplateId }

/-- Parsed JSON object returned by the generation call. -/
structure RawGenerate where
  content : Option String := none
  confidence : Option ℚ := none
  «variables» : Option (List (String × String)) := none
deriving DecidableEq, Repr

/-- Record `ResponseGeneration` as returned to callers. -/
structure ResponseGeneration where
  content : String
  confidence : ℚ
  «variables» : List (String × String)
deriving DecidableEq, Repr

/-- Source `generateResponse`: the content falls back to the unmodified
template content (both on `result.content || templateContent` and in
the catch branch); confidence clamped as in `classifyInquiry`. -/
def generateResponse (call : Except Unit RawGenerate)
    (templateContent : String) : ResponseGeneration :=
  match call with
  | .error _ =>
      { content := templateContent
        confidence := 0
        «variables» := [] }
  | .ok r =>
      { content := jsOrStr r.content templateContent
        confidence := clamp01 (jsOrNum r.confidence (1/2))
        «variables» := r.«variables».getD [] }

/-- Parsed JSON object returned by the improvement call. -/
structure RawImprove where
  improvedContent : Option String := none
  improvements : Option (List String) := none
  confidence : Option ℚ := none
deriving DecidableEq, Repr

/-- Result record of `improveTemplate`. -/
structure TemplateImprovement where
  improvedContent : String
  improvements : List String
  confidence : ℚ
deriving DecidableEq, Repr

/-- Source `improveTemplate`: the feedback aggregation feeds only the prompt,
so the returned record depends on the call outcome and the template
content alone. -/
def improveTemplate (call : Except Unit RawImprove)
    (templateContent : String) : TemplateImprovement :=
  match call with
  | .error _ =>
      { improvedContent := templateContent
        improvements := []
        confidence := 0 }
  | .ok r =>
      { improvedContent := jsOrStr r.improvedContent templateContent
        improvements := r.improvements.getD []
        confidence := clamp01 (jsOrNum r.confidence (1/2)) }

/-! ## Request handlers (`src/server/routes.ts`) -/

/-- Body of `POST /api/inquiries`, already validated by
`insertInquirySchema.parse` (the claims below concern structurally valid
bodies; the spread in the handler overwrites any user-supplied
category/priority/aiClassification with the classifier's output, so
those keys are not modelled). -/
structure InquiryBody where
  subject : Option String := none
  content : String
  source : Option String := none
  sender : Option String := none
deriving DecidableEq, Repr

/-- The analytics-summary `responseRate` computation of
`GET /api/analytics/summary`, applied to the list returned by
`getAnalytics(user.id, 7)`.  `none` models the JS division producing a
non-finite value (`NaN` when both sums are 0, `±Infinity` when only the
denominator is): the guard in the source checks `analytics.length > 0`
only, not the denominator.
`analytics.reduce((sum, a) => sum + (a.automatedResponses || 0), 0)`: -/
def sumAutomated (analytics : List Analytics) : Int :=
  analytics.foldl (fun sum a => sum + orZero a.automatedResponses) 0

/-- Sum `analytics.reduce((sum, a) => sum + (a.totalInquiries || 0), 0)`. -/
def sumTotalInquiries (analytics : List Analytics) : Int :=
  analytics.foldl (fun sum a => sum + orZero a.totalInquiries) 0

/-- The `responseRate` field of the summary object. -/
def summaryResponseRate (analytics : List Analytics) : Option ℚ :=
  if analytics.length > 0 then
    if sumTotalInquiries analytics = 0 then none
    else some ((sumAutomated analytics : ℚ) / (sumTotalInquiries analytics : ℚ) * 100)
  else some 0

/-- Handler of `PUT /api/responses/:id/feedback`: destructures
`{ customerFeedback, success }` from the JSON body (a missing key
destructures to `undefined`, `Jv.undef`) and passes an object carrying
both keys to `updateResponse`; `none` is the 404 branch. -/
def putResponseFeedback (s : Store) (id : String)
    (customerFeedback : Jv Int) (success : Jv Bool) :
    Option Response × Store :=
  MemStorage.updateResponse s id
    { customerFeedback := some customerFeedback, success := some success }

/-- The hardcoded demo owner username used by every handler. -/
def DEMO_USER_ID : String := "jane.smith"

/-- Handler of `POST /api/inquiries`: resolve the demo owner (404 → `none`),
classify, validate-and-store the inquiry, and — when the classifier
suggested a template id that is truthy and resolves in storage —
generate a response, store it marked automated/unmodified, and bump the
template's usage counter.  `inqId`/`respId` are the generated UUIDs and
`now` the clock tick; `call`/`genCall` are the outcomes of the two
underlying AI calls.  Returns the final store and the created inquiry
(the endpoint's 201 body). -/
def postInquiry (s : Store) (body : InquiryBody)
    (call : Except Unit RawClassify) (genCall : Except Unit RawGenerate)
    (inqId respId : String) (now : Nat) : Option (Store × Inquiry) :=
  match MemStorage.getUserByUsername s DEMO_USER_ID with
  | none => none
  | some user =>
      let classification := classifyInquiry call
      let validated : InsertInquiry := {
        subject := body.subject
        content := body.content
        source := body.source
        sender := body.sender
        userId := user.id
        category := some classification.category
        priority := some classification.priority }
      let (inquiry, s1) := MemStorage.createInquiry s validated inqId now
      match classification.suggestedTemplateId with
      | none => some (s1, inquiry)
      | some tid =>
          match MemStorage.getTemplate s1 tid with
          | none => some (s1, inquiry)
          | some template =>
              let responseGeneration := generateResponse genCall template.content
              let (_, s2) := MemStorage.createResponse s1
                { inquiryId := inquiry.id
                  templateId := some template.id
                  content := responseGeneration.content
                  isAutomated := some true
                  wasModified := some false } respId now
              let (_, s3) := MemStorage.updateTemplate s2 template.id
                { timesUsed := some (some (orZero template.timesUsed + 1)) } now
              some (s3, inquiry)

/-! ## Helper lemmas -/

theorem clamp01_nonneg (c : ℚ) : 0 ≤ clamp01 c := le_max_left 0 _

theorem clamp01_le_one (c : ℚ) : clamp01 c ≤ 1 :=
  max_le zero_le_one (min_le_left 1 c)

theorem clamp01_eq_zero_iff (c : ℚ) : clamp01 c = 0 ↔ c ≤ 0 := by
  unfold clamp01
  constructor
  · intro h
    have hmin : min 1 c ≤ 0 := max_eq_left_iff.mp h
    exact (min_le_iff.mp hmin).resolve_left (by norm_num)
  · intro hc
    rw [min_eq_right (hc.trans (by norm_num)), max_eq_left hc]

theorem clamp01_jsOrNum_half_eq_zero_iff (x : Option ℚ) :
    clamp01 (jsOrNum x (1/2)) = 0 ↔ ∃ c, x = some c ∧ c < 0 := by
  rw [clamp01_eq_zero_iff]
  cases x with
  | none =>
      simp [jsOrNum]
  | some c =>
      by_cases hc : c = 0
      · subst hc
        simp [jsOrNum]
      · simp only [jsOrNum, if_neg hc, Option.some_inj]
        constructor
        · intro hle
          exact ⟨c, rfl, lt_of_le_of_ne hle hc⟩
        · rintro ⟨c', hc', hlt⟩
          rw [hc']
          exact hlt.le

/-- Demo analytics rows used by concrete instantiations below. -/
def dayAllZero : Analytics :=
  { id := "a0", userId := "u1", date := some 1, totalInquiries := some 0,
    automatedResponses := some 0, manualResponses := some 0,
    averageResponseTime := some 0, customerSatisfaction := some 0,
    timeSaved := some 0 }

def dayTenFive : Analytics :=
  { dayAllZero with
    id := "a1"
    totalInquiries := some 10
    automatedResponses := some 5 }

def dayTwentyFifteen : Analytics :=
  { dayAllZero with
    id := "a2"
    totalInquiries := some 20
    automatedResponses := some 15 }

/-! ## Claims -/

/-- C1 counterexample: a trailing-7-day list with one matching record
whose `totalInquiries` is 0 makes the summary's `responseRate` division
produce a non-finite value (`0/0 = NaN`, modelled `none`), not 0: the
source guards only `analytics.length > 0`, not the denominator. -/
theorem c1_counterexample :
    summaryResponseRate [dayAllZero] = none ∧
    [dayAllZero].length > 0 ∧ summaryResponseRate [dayAllZero] ≠ some 0 := by
  refine ⟨by decide, by decide, by decide⟩

/-- C1 (amended): `responseRate` equals
(sum of automatedResponses / sum of totalInquiries) × 100 whenever the
denominator sum is nonzero, and is 0 when there are no matching
records; but when matching records exist and the denominator sum is
zero the division yields an undefined (NaN/Infinity) value — the guard
covers only the empty-record case. -/
theorem c1_amended_responseRate (analytics : List Analytics) :
    (analytics = [] → summaryResponseRate analytics = some 0) ∧
    (summaryResponseRate analytics = none ↔
      analytics ≠ [] ∧ sumTotalInquiries analytics = 0) ∧
    (sumTotalInquiries analytics ≠ 0 →
      summaryResponseRate analytics =
        some ((sumAutomated analytics : ℚ) /
          (sumTotalInquiries analytics : ℚ) * 100)) := by
  refine ⟨?_, ?_, ?_⟩
  · rintro rfl
    rfl
  · constructor
    · intro h
      cases analytics with
      | nil => simp [summaryResponseRate] at h
      | cons a rest =>
          refine ⟨by simp, ?_⟩
          by_contra htot
          simp [summaryResponseRate, htot] at h
    · rintro ⟨hne, htot⟩
      cases analytics with
      | nil => exact absurd rfl hne
      | cons a rest => simp [summaryResponseRate, htot]
  · intro htot
    cases analytics with
    | nil => exact absurd rfl htot
    | cons a rest => simp [summaryResponseRate, htot]

/-- C1 witness: the spec's Scenario 4 rows, totalInquiries [10, 20] and
automatedResponses [5, 15], give responseRate (5+15)/(10+20)×100 = 200/3. -/
theorem c1_witness :
    sumTotalInquiries [dayTenFive, dayTwentyFifteen] ≠ 0 ∧
    summaryResponseRate [dayTenFive, dayTwentyFifteen] = some (200/3) := by
  constructor
  · decide
  · have h := (c1_amended_responseRate [dayTenFive, dayTwentyFifteen]).2.2 (by decide)
    rw [h]
    norm_num [sumAutomated, sumTotalInquiries, orZero, dayTenFive,
      dayTwentyFifteen, dayAllZero]

/-- C5: every confidence value returned by `classifyInquiry`,
`generateResponse` or `improveTemplate` lies in [0,1] for every outcome
of the underlying call; in particular a provider-supplied confidence of
1.5 is returned as 1.0 and -0.2 as 0.0. -/
theorem c5_confidence_clamped (callC : Except Unit RawClassify)
    (callG : Except Unit RawGenerate) (callI : Except Unit RawImprove)
    (templateContent : String) :
    (0 ≤ (classifyInquiry callC).confidence ∧
      (classifyInquiry callC).confidence ≤ 1) ∧
    (0 ≤ (generateResponse callG templateContent).confidence ∧
      (generateResponse callG templateContent).confidence ≤ 1) ∧
    (0 ≤ (improveTemplate callI templateContent).confidence ∧
      (improveTemplate callI templateContent).confidence ≤ 1) ∧
    (∀ r : RawClassify, r.confidence = some (3/2) →
      (classifyInquiry (Except.ok r)).confidence = 1) ∧
    (∀ r : RawClassify, r.confidence = some (-(1/5)) →
      (classifyInquiry (Except.ok r)).confidence = 0) ∧
    (∀ r : RawGenerate, r.confidence = some (3/2) →
      (generateResponse (Except.ok r) templateContent).confidence = 1) ∧
    (∀ r : RawGenerate, r.confidence = some (-(1/5)) →
      (generateResponse (Except.ok r) templateContent).confidence = 0) ∧
    (∀ r : RawImprove, r.confidence = some (3/2) →
      (improveTemplate (Except.ok r) templateContent).confidence = 1) ∧
    (∀ r : RawImprove, r.confidence = some (-(1/5)) →
      (improveTemplate (Except.ok r) templateContent).confidence = 0) := by
  refine ⟨?_, ?_, ?_, ?_, ?_, ?_, ?_, ?_, ?_⟩
  · cases callC with
    | error e => exact ⟨le_refl 0, zero_le_one⟩
    | ok r => exact ⟨clamp01_nonneg _, clamp01_le_one _⟩
  · cases callG with
    | error e => exact ⟨le_refl 0, zero_le_one⟩
    | ok r => exact ⟨clamp01_nonneg _, clamp01_le_one _⟩
  · cases callI with
    | error e => exact ⟨le_refl 0, zero_le_one⟩
    | ok r => exact ⟨clamp01_nonneg _, clamp01_le_one _⟩
  · intro r hr
    simp [classifyInquiry, hr, jsOrNum, clamp01]
    norm_num [inf_eq_min, sup_eq_max, min_def, max_def]
  · intro r hr
    simp [classifyInquiry, hr, jsOrNum, clamp01]
  · intro r hr
    simp [generateResponse, hr, jsOrNum, clamp01]
    norm_num [inf_eq_min, sup_eq_max, min_def, max_def]
  · intro r hr
    simp [generateResponse, hr, jsOrNum, clamp01]
  · intro r hr
    simp [improveTemplate, hr, jsOrNum, clamp01]
    norm_num [inf_eq_min, sup_eq_max, min_def, max_def]
  · intro r hr
    simp [improveTemplate, hr, jsOrNum, clamp01]

/-- C5 witness: the clamping applied at confidence 1.5 by a successful
classification call. -/
theorem c5_witness :
    ({ confidence := some (3/2) } : RawClassify).confidence = some (3/2) ∧
    (classifyInquiry (Except.ok ({ confidence := some (3/2) } : RawClassify))).confidence = 1 :=
  ⟨rfl, (c5_confidence_clamped (Except.error ()) (Except.error ())
    (Except.error ()) "").2.2.2.1 _ rfl⟩

/-- C10 counterexample: a successful (non-throwing) classification call
whose provider-supplied confidence is -0.2 returns confidence 0, so a
returned 0 is not exclusive to the failure/fallback path. -/
theorem c10_counterexample :
    (classifyInquiry (Except.ok
      ({ confidence := some (-(1/5)) } : RawClassify))).confidence = 0 := by
  simp [classifyInquiry, jsOrNum, clamp01]

/-- C10 (amended): on a successful call each operation replaces a falsy
supplied confidence (exactly 0, missing, or null) with 0.5 before
clamping, so a supplied 0 is never returned as 0; however, a returned
confidence of 0 on a successful call occurs precisely when the supplied
confidence is negative (clamped up to 0) — it is not exclusive to the
failure/fallback path. -/
theorem c10_amended_confidence (rc : RawClassify) (rg : RawGenerate)
    (ri : RawImprove) (templateContent : String) :
    ((rc.confidence = some 0 ∨ rc.confidence = none) →
      (classifyInquiry (Except.ok rc)).confidence = 1/2) ∧
    ((classifyInquiry (Except.ok rc)).confidence = 0 ↔
      ∃ c, rc.confidence = some c ∧ c < 0) ∧
    ((rg.confidence = some 0 ∨ rg.confidence = none) →
      (generateResponse (Except.ok rg) templateContent).confidence = 1/2) ∧
    ((generateResponse (Except.ok rg) templateContent).confidence = 0 ↔
      ∃ c, rg.confidence = some c ∧ c < 0) ∧
    ((ri.confidence = some 0 ∨ ri.confidence = none) →
      (improveTemplate (Except.ok ri) templateContent).confidence = 1/2) ∧
    ((improveTemplate (Except.ok ri) templateContent).confidence = 0 ↔
      ∃ c, ri.confidence = some c ∧ c < 0) := by
  refine ⟨?_, ?_, ?_, ?_, ?_, ?_⟩
  · rintro (h | h) <;> simp [classifyInquiry, h, jsOrNum, clamp01] <;> norm_num
  · simpa [classifyInquiry] using clamp01_jsOrNum_half_eq_zero_iff rc.confidence
  · rintro (h | h) <;> simp [generateResponse, h, jsOrNum, clamp01] <;> norm_num
  · simpa [generateResponse] using clamp01_jsOrNum_half_eq_zero_iff rg.confidence
  · rintro (h | h) <;> simp [improveTemplate, h, jsOrNum, clamp01] <;> norm_num
  · simpa [improveTemplate] using clamp01_jsOrNum_half_eq_zero_iff ri.confidence

/-- C10 witness: a successful call whose supplied confidence is exactly
0 returns 0.5, not 0. -/
theorem c10_witness :
    (({ confidence := some 0 } : RawClassify).confidence = some 0 ∨
      ({ confidence := some 0 } : RawClassify).confidence = none) ∧
    (classifyInquiry (Except.ok
      ({ confidence := some 0 } : RawClassify))).confidence = 1/2 :=
  ⟨Or.inl rfl,
    (c10_amended_confidence { confidence := some 0 } {} {} "").1 (Or.inl rfl)⟩

/-- Model of `Map.set` with a fresh key: it appends in insertion order. -/
theorem setAssoc_eq_append {α : Type} (l : List (String × α)) (k : String)
    (v : α) (h : k ∉ l.map Prod.fst) : setAssoc l k v = l ++ [(k, v)] := by
  induction l with
  | nil => rfl
  | cons p rest ih =>
      simp only [List.map_cons, List.mem_cons] at h
      push_neg at h
      simp [setAssoc, Ne.symm h.1, ih h.2]

/-- Demo records used by concrete instantiations below. -/
def demoUser : User :=
  { id := "u1", username := "jane.smith", password := "password123" }

def demoTemplate : Template :=
  { id := "t1", userId := "u1", name := "Pricing Request",
    category := "pricing", subject := some "Re: Pricing Information",
    content := "Thank you for reaching out.",
    «variables» := some ["serviceType"], isActive := some true,
    successRate := some 89, timesUsed := some 28, createdAt := 0,
    updatedAt := 0 }

def demoResponse : Response :=
  { id := "r1", inquiryId := "i1", templateId := some "t1",
    content := "Hello", isAutomated := some true, wasModified := some false,
    sentAt := 0, customerFeedback := Jv.val 4, success := Jv.val true }

def demoInquiry : Inquiry :=
  { id := "i1", userId := "u1", subject := none, content := "Need a quote",
    category := some "pricing", priority := some "urgent",
    source := some "email", sender := none, createdAt := 0 }

def demoStore : Store :=
  { users := [("u1", demoUser)], templates := [("t1", demoTemplate)],
    inquiries := [("i1", demoInquiry)], responses := [("r1", demoResponse)],
    integrations := [], analytics := [] }

/-- C2 counterexample: `PUT /api/templates/:id` forwards the raw request
body to `updateTemplate`, whose spread `{ ...template, ...updates }`
lets a payload `id` field overwrite the stored record's id: updating the
template created with id "t1" with payload `{ id: "evil" }` returns and
stores a record whose id is "evil". -/
theorem c2_counterexample :
    ((MemStorage.updateTemplate demoStore "t1"
        ({ id := some "evil" } : TemplatePatch) 5).1.map (fun t => t.id)) =
      some "evil" ∧
    ((lookupAssoc (MemStorage.updateTemplate demoStore "t1"
        ({ id := some "evil" } : TemplatePatch) 5).2.templates "t1").map
      (fun t => t.id)) = some "evil" ∧
    demoTemplate.id = "t1" ∧ ("evil" : String) ≠ "t1" := by
  refine ⟨by decide, by decide, rfl, by decide⟩

/-- C2 (amended): for every update operation (`updateTemplate`,
`updateResponse`, `updateIntegration`, `updateAnalytics`) and every
partial payload that does NOT itself contain an `id` field, the returned
and stored record keeps the id it was created with; a payload containing
an `id` field overwrites it (see the counterexample). -/
theorem c2_amended_id_immutable :
    (∀ (s : Store) (key : String) (p : TemplatePatch) (now : Nat)
        (t : Template), lookupAssoc s.templates key = some t → p.id = none →
      (MemStorage.updateTemplate s key p now).1 =
        some (MemStorage.applyTemplatePatch t p now) ∧
      (MemStorage.applyTemplatePatch t p now).id = t.id) ∧
    (∀ (s : Store) (key : String) (p : ResponsePatch) (r : Response),
      lookupAssoc s.responses key = some r → p.id = none →
      (MemStorage.updateResponse s key p).1 =
        some (MemStorage.applyResponsePatch r p) ∧
      (MemStorage.applyResponsePatch r p).id = r.id) ∧
    (∀ (s : Store) (key : String) (p : IntegrationPatch) (g : Integration),
      lookupAssoc s.integrations key = some g → p.id = none →
      (MemStorage.updateIntegration s key p).1 =
        some (MemStorage.applyIntegrationPatch g p) ∧
      (MemStorage.applyIntegrationPatch g p).id = g.id) ∧
    (∀ (s : Store) (key : String) (p : AnalyticsPatch) (a : Analytics),
      lookupAssoc s.analytics key = some a → p.id = none →
      (MemStorage.updateAnalytics s key p).1 =
        some (MemStorage.applyAnalyticsPatch a p) ∧
      (MemStorage.applyAnalyticsPatch a p).id = a.id) := by
  refine ⟨?_, ?_, ?_, ?_⟩
  · intro s key p now t h hid
    exact ⟨by simp [MemStorage.updateTemplate, h],
      by simp [MemStorage.applyTemplatePatch, hid]⟩
  · intro s key p r h hid
    exact ⟨by simp [MemStorage.updateResponse, h],
      by simp [MemStorage.applyResponsePatch, hid]⟩
  · intro s key p g h hid
    exact ⟨by simp [MemStorage.updateIntegration, h],
      by simp [MemStorage.applyIntegrationPatch, hid]⟩
  · intro s key p a h hid
    exact ⟨by simp [MemStorage.updateAnalytics, h],
      by simp [MemStorage.applyAnalyticsPatch, hid]⟩

/-- C2 witness: an id-free payload on the demo template keeps id "t1". -/
theorem c2_witness :
    lookupAssoc demoStore.templates "t1" = some demoTemplate ∧
    ({ name := some "Renamed" } : TemplatePatch).id = none ∧
    (MemStorage.applyTemplatePatch demoTemplate
      { name := some "Renamed" } 5).id = demoTemplate.id :=
  ⟨by decide, rfl,
    (c2_amended_id_immutable.1 demoStore "t1" { name := some "Renamed" } 5
      demoTemplate (by decide) rfl).2⟩

/-- C6: on an existing template, `updateTemplate` returns the shallow
merge; the merge stamps `updatedAt := now` unconditionally (the
`updatedAt:` literal follows the spread, so even a payload `updatedAt`
is ignored); an empty payload changes nothing but `updatedAt`; and
provided the clock advanced since the stored stamp (`new Date()` of a
later call), the new `updatedAt` is strictly greater. -/
theorem c6_update_refreshes_updatedAt (s : Store) (key : String)
    (p : TemplatePatch) (now : Nat) (t : Template)
    (h : lookupAssoc s.templates key = some t) :
    (MemStorage.updateTemplate s key p now).1 =
      some (MemStorage.applyTemplatePatch t p now) ∧
    (MemStorage.applyTemplatePatch t p now).updatedAt = now ∧
    MemStorage.applyTemplatePatch t ({} : TemplatePatch) now =
      { t with updatedAt := now } ∧
    (t.updatedAt < now →
      t.updatedAt < (MemStorage.applyTemplatePatch t p now).updatedAt) := by
  refine ⟨by simp [MemStorage.updateTemplate, h], rfl, ?_, ?_⟩
  · cases t
    simp [MemStorage.applyTemplatePatch]
  · intro hlt
    exact hlt

/-- C6 witness: updating the demo template (stored stamp 0) at tick 5
strictly advances `updatedAt`. -/
theorem c6_witness :
    lookupAssoc demoStore.templates "t1" = some demoTemplate ∧
    demoTemplate.updatedAt < 5 ∧
    demoTemplate.updatedAt <
      (MemStorage.applyTemplatePatch demoTemplate
        ({} : TemplatePatch) 5).updatedAt :=
  ⟨by decide, by decide,
    (c6_update_refreshes_updatedAt demoStore "t1" ({} : TemplatePatch) 5
      demoTemplate (by decide)).2.2.2 (by decide)⟩

/-- C7: a `createTemplate` whose insert payload omits the optional
fields returns (and stores) a template with `isActive = true`,
`successRate = 0`, `timesUsed = 0`, empty `variables`, and
`updatedAt = createdAt` (both are the same `now`). -/
theorem c7_template_create_defaults (s : Store) (ins : InsertTemplate)
    (id : String) (now : Nat) (hsub : ins.subject = none)
    (hvar : ins.«variables» = none) (hact : ins.isActive = none)
    (hsr : ins.successRate = none) (htu : ins.timesUsed = none) :
    (MemStorage.createTemplate s ins id now).1 =
      { id := id, userId := ins.userId, name := ins.name,
        category := ins.category, subject := none, content := ins.content,
        «variables» := some [], isActive := some true, successRate := some 0,
        timesUsed := some 0, createdAt := now, updatedAt := now } ∧
    (MemStorage.createTemplate s ins id now).1.updatedAt =
      (MemStorage.createTemplate s ins id now).1.createdAt ∧
    (MemStorage.createTemplate s ins id now).2.templates =
      setAssoc s.templates id (MemStorage.createTemplate s ins id now).1 := by
  refine ⟨?_, rfl, rfl⟩
  simp [MemStorage.createTemplate, hsub, hvar, hact, hsr, htu]

/-- C7 witness: a minimal insert payload on an empty store. -/
theorem c7_witness :
    ({ userId := "u1", name := "T", category := "general",
        content := "Hi" } : InsertTemplate).subject = none ∧
    (MemStorage.createTemplate demoStore
      { userId := "u1", name := "T", category := "general", content := "Hi" }
      "t9" 4).1 =
      { id := "t9", userId := "u1", name := "T", category := "general",
        subject := none, content := "Hi", «variables» := some [],
        isActive := some true, successRate := some 0, timesUsed := some 0,
        createdAt := 4, updatedAt := 4 } :=
  ⟨rfl,
    (c7_template_create_defaults demoStore
      { userId := "u1", name := "T", category := "general", content := "Hi" }
      "t9" 4 rfl rfl rfl rfl rfl).1⟩

/-- C8: `getResponsesByUser u` returns exactly the stored responses
whose `inquiryId` belongs to the id set of `u`'s stored inquiries — the
two-step application-level join; responses whose `inquiryId` is
dangling or belongs to another user's inquiry are excluded. -/
theorem c8_responses_by_user_join (s : Store) (u : String) (r : Response) :
    r ∈ MemStorage.getResponsesByUser s u ↔
      r ∈ valuesOf s.responses ∧
        ∃ i, i ∈ valuesOf s.inquiries ∧ i.userId = u ∧ i.id = r.inquiryId := by
  simp only [MemStorage.getResponsesByUser, MemStorage.getInquiries,
    List.mem_filter, List.elem_iff, List.mem_map, decide_eq_true_eq]
  constructor
  · rintro ⟨hr, a, ⟨ha, hu⟩, hid⟩
    exact ⟨hr, a, ha, hu, hid⟩
  · rintro ⟨hr, i, hi, hu, hid⟩
    exact ⟨hr, i, ⟨hi, hu⟩, hid⟩

/-- C9: the feedback route always passes both destructured keys to
`updateResponse`, so the stored `customerFeedback`/`success` become
exactly the body values — `Jv.undef` (JS `undefined`) when the body
omits the key, overwriting any previously stored value — while
`content`, `templateId`, `sentAt`, `isAutomated` and `wasModified` are
always left untouched. -/
theorem c9_feedback_overwrites_with_undefined (s : Store) (id : String)
    (customerFeedback : Jv Int) (success : Jv Bool) (r : Response)
    (h : lookupAssoc s.responses id = some r) :
    (putResponseFeedback s id customerFeedback success).1 =
      some { r with customerFeedback := customerFeedback,
                    success := success } ∧
    (putResponseFeedback s id customerFeedback success).2.responses =
      setAssoc s.responses id
        { r with customerFeedback := customerFeedback,
                 success := success } := by
  cases r
  constructor <;>
    simp [putResponseFeedback, MemStorage.updateResponse, h,
      MemStorage.applyResponsePatch]

/-- C9 witness: a body omitting both keys (`Jv.undef`) overwrites the
demo response's stored rating 4 with `undefined`. -/
theorem c9_witness :
    lookupAssoc demoStore.responses "r1" = some demoResponse ∧
    demoResponse.customerFeedback = Jv.val 4 ∧
    (putResponseFeedback demoStore "r1" Jv.undef Jv.undef).1 =
      some { demoResponse with customerFeedback := Jv.undef,
                               success := Jv.undef } :=
  ⟨by decide, rfl,
    (c9_feedback_overwrites_with_undefined demoStore "r1" Jv.undef Jv.undef
      demoResponse (by decide)).1⟩

/-- C3: when the underlying AI call throws, `classifyInquiry` returns
the all-defaults record (no raise to its caller), and the
`POST /api/inquiries` intake still creates and stores the inquiry with
category "general" and priority "normal", creating no `Response` (and
touching no template): the result store differs from the input store in
`inquiries` alone. -/
theorem c3_classifier_failure_intake (s : Store) (body : InquiryBody)
    (genCall : Except Unit RawGenerate) (inqId respId : String) (now : Nat)
    (user : User)
    (h : MemStorage.getUserByUsername s DEMO_USER_ID = some user) :
    classifyInquiry (Except.error ()) =
      { category := "general", priority := "normal",
        intent := "Unable to classify inquiry", confidence := 0,
        requiredVariables := [], suggestedTemplateId := none } ∧
    postInquiry s body (Except.error ()) genCall inqId respId now =
      some
        ({ s with
           inquiries := setAssoc s.inquiries inqId
             { id := inqId, userId := user.id, subject := body.subject,
               content := body.content, category := some "general",
               priority := some "normal",
               source := some (body.source.getD "email"),
               sender := body.sender, createdAt := now } },
         { id := inqId, userId := user.id, subject := body.subject,
           content := body.content, category := some "general",
           priority := some "normal",
           source := some (body.source.getD "email"),
           sender := body.sender, createdAt := now }) := by
  refine ⟨rfl, ?_⟩
  simp [postInquiry, h, classifyInquiry, MemStorage.createInquiry]

/-- C3 witness: intake on the demo store with a throwing classifier. -/
theorem c3_witness :
    MemStorage.getUserByUsername demoStore DEMO_USER_ID = some demoUser ∧
    postInquiry demoStore { content := "Hello" } (Except.error ())
      (Except.error ()) "i9" "r9" 7 =
      some
        ({ demoStore with
           inquiries := setAssoc demoStore.inquiries "i9"
             { id := "i9", userId := "u1", subject := none,
               content := "Hello", category := some "general",
               priority := some "normal", source := some "email",
               sender := none, createdAt := 7 } },
         { id := "i9", userId := "u1", subject := none, content := "Hello",
           category := some "general", priority := some "normal",
           source := some "email", sender := none, createdAt := 7 }) :=
  ⟨by decide,
    (c3_classifier_failure_intake demoStore { content := "Hello" }
      (Except.error ()) "i9" "r9" 7 demoUser (by decide)).2⟩

/-- C4: when the classification carries a `suggestedTemplateId` that
resolves in storage (with consistent key), intake stores the inquiry
carrying the classifier's category and priority, appends exactly one
response that references the template with `isAutomated = true` and
`wasModified = false`, bumps that template's `timesUsed` by exactly one
(`(timesUsed || 0) + 1`), and returns the created inquiry. -/
theorem c4_intake_with_suggested_template (s : Store) (body : InquiryBody)
    (call : Except Unit RawClassify) (genCall : Except Unit RawGenerate)
    (inqId respId : String) (now : Nat) (user : User) (tid : String)
    (template : Template)
    (huser : MemStorage.getUserByUsername s DEMO_USER_ID = some user)
    (hsugg : (classifyInquiry call).suggestedTemplateId = some tid)
    (htmpl : lookupAssoc s.templates tid = some template)
    (hid : template.id = tid)
    (hfresh : respId ∉ s.responses.map Prod.fst) :
    postInquiry s body call genCall inqId respId now =
      some
        ({ s with
           inquiries := setAssoc s.inquiries inqId
             { id := inqId, userId := user.id, subject := body.subject,
               content := body.content,
               category := some (classifyInquiry call).category,
               priority := some (classifyInquiry call).priority,
               source := some (body.source.getD "email"),
               sender := body.sender, createdAt := now },
           responses := s.responses ++
             [(respId,
               { id := respId, inquiryId := inqId,
                 templateId := some template.id,
                 content := (generateResponse genCall template.content).content,
                 isAutomated := some true, wasModified := some false,
                 sentAt := now, customerFeedback := Jv.null,
                 success := Jv.null })],
           templates := setAssoc s.templates template.id
             { template with
               timesUsed := some (orZero template.timesUsed + 1)
               updatedAt := now } },
         { id := inqId, userId := user.id, subject := body.subject,
           content := body.content,
           category := some (classifyInquiry call).category,
           priority := some (classifyInquiry call).priority,
           source := some (body.source.getD "email"),
           sender := body.sender, createdAt := now }) ∧
    (∀ n : Int, template.timesUsed = some n →
      orZero template.timesUsed + 1 = n + 1) := by
  constructor
  · have hlook2 : lookupAssoc s.templates template.id = some template := by
      rw [hid]; exact htmpl
    cases template with
    | mk tId tUserId tName tCategory tSubject tContent tVars tAct tSr tTu tCa tUa =>
        simp only [postInquiry, huser, hsugg, MemStorage.getTemplate,
          MemStorage.createInquiry, MemStorage.createResponse,
          MemStorage.updateTemplate, MemStorage.applyTemplatePatch,
          htmpl, hlook2, Option.getD_some, Option.getD_none]
        have happ : ∀ v, setAssoc s.responses respId v =
            s.responses ++ [(respId, v)] :=
          fun v => setAssoc_eq_append _ _ _ hfresh
        simp [happ]
  · intro n hn
    rw [hn]
    rfl

/-- C4 witness: the spec's Scenario 1 on the demo store — classifier
suggests the existing pricing template "t1" with category "pricing",
priority "urgent", confidence 0.9; generation falls back to the
template text. -/
theorem c4_witness :
    MemStorage.getUserByUsername demoStore DEMO_USER_ID = some demoUser ∧
    (classifyInquiry (Except.ok
      { category := some "pricing", priority := some "urgent",
        confidence := some (9/10),
        suggestedTemplateId := some "t1" })).suggestedTemplateId =
      some "t1" ∧
    lookupAssoc demoStore.templates "t1" = some demoTemplate ∧
    demoTemplate.id = "t1" ∧
    ("r9" : String) ∉ demoStore.responses.map Prod.fst ∧
    postInquiry demoStore { content := "Need a quote ASAP" }
      (Except.ok
        { category := some "pricing", priority := some "urgent",
          confidence := some (9/10), suggestedTemplateId := some "t1" })
      (Except.error ()) "i9" "r9" 3 =
      some
        ({ demoStore with
           inquiries := setAssoc demoStore.inquiries "i9"
             { id := "i9", userId := demoUser.id, subject := none,
               content := "Need a quote ASAP",
               category := some (classifyInquiry (Except.ok
                 { category := some "pricing", priority := some "urgent",
                   confidence := some (9/10),
                   suggestedTemplateId := some "t1" })).category,
               priority := some (classifyInquiry (Except.ok
                 { category := some "pricing", priority := some "urgent",
                   confidence := some (9/10),
                   suggestedTemplateId := some "t1" })).priority,
               source := some "email", sender := none, createdAt := 3 },
           responses := demoStore.responses ++
             [("r9",
               { id := "r9", inquiryId := "i9",
                 templateId := some demoTemplate.id,
                 content := (generateResponse (Except.error ())
                   demoTemplate.content).content,
                 isAutomated := some true, wasModified := some false,
                 sentAt := 3, customerFeedback := Jv.null,
                 success := Jv.null })],
           templates := setAssoc demoStore.templates demoTemplate.id
             { demoTemplate with
               timesUsed := some (orZero demoTemplate.timesUsed + 1)
               updatedAt := 3 } },
         { id := "i9", userId := demoUser.id, subject := none,
           content := "Need a quote ASAP",
           category := some (classifyInquiry (Except.ok
             { category := some "pricing", priority := some "urgent",
               confidence := some (9/10),
               suggestedTemplateId := some "t1" })).category,
           priority := some (classifyInquiry (Except.ok
             { category := some "pricing", priority := some "urgent",
               confidence := some (9/10),
               suggestedTemplateId := some "t1" })).priority,
           source := some "email", sender := none, createdAt := 3 }) :=
  ⟨by decide, by decide, by decide, rfl, by decide,
    (c4_intake_with_suggested_template demoStore
      { content := "Need a quote ASAP" }
      (Except.ok
        { category := some "pricing", priority := some "urgent",
          confidence := some (9/10), suggestedTemplateId := some "t1" })
      (Except.error ()) "i9" "r9" 3 demoUser "t1" demoTemplate
      (by decide) (by decide) (by decide) rfl (by decide)).1⟩
